import Mathlib

/-!
Verification of the mod web-framework core against its specification.

The Go sources are shallowly embedded: byte strings become `List Nat`,
Go errors become `Except String`, Go maps become association lists, and
external libraries (crypto/aes, chacha20poly1305, crypto/rsa,
crypto/sha256, golang-jwt, the cache backends, encoding/json) are taken
as function parameters constrained only by their documented contracts.
-/

namespace Mod

/-! ## Crypto engine: symmetric AEAD (src/unnamed/part_000, SymmetricEncryption) -/

/-- Nonce size in bytes of AES-256-GCM, the value of gcm.NonceSize() in
crypto/cipher for the standard GCM construction. -/
def aesGCMNonceSize : Nat := 12

/-- Nonce size in bytes of ChaCha20-Poly1305 (chacha20poly1305.NonceSize). -/
def chachaNonceSize : Nat := 12

/-- Model of an AEAD instance supplied by the external Go crypto libraries
(cipher.NewGCM over AES, chacha20poly1305.New). The field sealBytes maps
key, nonce and plaintext to the AEAD output (ciphertext followed by tag);
the field opn maps key, nonce and sealed bytes to the recovered plaintext,
or none when integrity checking fails. -/
structure AEAD where
  sealBytes : List Nat → List Nat → List Nat → List Nat
  opn : List Nat → List Nat → List Nat → Option (List Nat)

/-- SymmetricEncryption.deriveKey: derive a 32-byte key by taking SHA-256
of the configured key material. The hash itself is the external
crypto/sha256, passed as a parameter. The key material argument is the
result of getKey (the configured base64 literal or key file, decoded by
external libraries), hence an Except. -/
def deriveKey (sha256 : List Nat → List Nat) (keyMaterial : List Nat) : List Nat :=
  sha256 keyMaterial

/-- SymmetricEncryption.EncryptAES256GCM: derive the key, then return
nonce followed by the AEAD output, exactly the effect of
gcm.Seal(nonce, nonce, plaintext, nil). The fresh random nonce drawn from
crypto/rand is passed as the nonce argument. aes.NewCipher and
cipher.NewGCM cannot fail here because the derived key is 32 bytes. -/
def EncryptAES256GCM (sha256 : List Nat → List Nat) (gcm : AEAD)
    (keyMaterial : Except String (List Nat)) (nonce plaintext : List Nat) :
    Except String (List Nat) :=
  match keyMaterial with
  | .error e => .error e
  | .ok km => .ok (nonce ++ gcm.sealBytes (deriveKey sha256 km) nonce plaintext)

/-- SymmetricEncryption.DecryptAES256GCM: derive the key; reject inputs
shorter than the nonce size with the ciphertext-too-short error; split
off the nonce; hand the rest to gcm.Open, mapping an integrity failure
to the failed-to-decrypt error. -/
def DecryptAES256GCM (sha256 : List Nat → List Nat) (gcm : AEAD)
    (keyMaterial : Except String (List Nat)) (ciphertext : List Nat) :
    Except String (List Nat) :=
  match keyMaterial with
  | .error e => .error e
  | .ok km =>
    if ciphertext.length < aesGCMNonceSize then .error "ciphertext too short"
    else
      match gcm.opn (deriveKey sha256 km) (ciphertext.take aesGCMNonceSize)
          (ciphertext.drop aesGCMNonceSize) with
      | some p => .ok p
      | none => .error "failed to decrypt"

/-- SymmetricEncryption.EncryptChaCha20Poly1305, same structure as the
AES variant; chacha20poly1305.New succeeds because the derived key is
32 bytes. -/
def EncryptChaCha20Poly1305 (sha256 : List Nat → List Nat) (chacha : AEAD)
    (keyMaterial : Except String (List Nat)) (nonce plaintext : List Nat) :
    Except String (List Nat) :=
  match keyMaterial with
  | .error e => .error e
  | .ok km => .ok (nonce ++ chacha.sealBytes (deriveKey sha256 km) nonce plaintext)

/-- SymmetricEncryption.DecryptChaCha20Poly1305. -/
def DecryptChaCha20Poly1305 (sha256 : List Nat → List Nat) (chacha : AEAD)
    (keyMaterial : Except String (List Nat)) (ciphertext : List Nat) :
    Except String (List Nat) :=
  match keyMaterial with
  | .error e => .error e
  | .ok km =>
    if ciphertext.length < chachaNonceSize then .error "ciphertext too short"
    else
      match chacha.opn (deriveKey sha256 km) (ciphertext.take chachaNonceSize)
          (ciphertext.drop chachaNonceSize) with
      | some p => .ok p
      | none => .error "failed to decrypt"

/-! ## Crypto engine: RSA-OAEP decryption (src/unnamed/part_000, AsymmetricEncryption) -/

/-- The chunk loop of AsymmetricEncryption.DecryptRSAOAEP: decrypt the
given number of chunks of keySize bytes each, concatenating the results.
The per-chunk rsa.DecryptOAEP call (external crypto/rsa) is the dec
parameter. -/
def decryptChunksAux (dec : List Nat → Except String (List Nat)) (keySize : Nat) :
    Nat → List Nat → Except String (List Nat)
  | 0, _ => .ok []
  | n + 1, ct =>
    match dec (ct.take keySize) with
    | .error e => .error ("failed to decrypt chunk: " ++ e)
    | .ok c =>
      match decryptChunksAux dec keySize n (ct.drop keySize) with
      | .error e => .error e
      | .ok rest => .ok (c ++ rest)

/-- AsymmetricEncryption.DecryptRSAOAEP: a ciphertext of exactly keySize
bytes is decrypted as a single block; otherwise the length must be a
multiple of keySize (the modulus size privKey.Size()), and the input is
decrypted chunk by chunk. The keySize division gives the number of loop
iterations of the Go for loop. -/
def DecryptRSAOAEP (keySize : Nat) (dec : List Nat → Except String (List Nat))
    (ciphertext : List Nat) : Except String (List Nat) :=
  if ciphertext.length = keySize then dec ciphertext
  else if ciphertext.length % keySize ≠ 0 then
    .error "invalid ciphertext length for RSA decryption"
  else decryptChunksAux dec keySize (ciphertext.length / keySize) ciphertext

end Mod

namespace Mod

/-! ## Theorems for claims C6, C7, C8 -/

lemma decryptChunksAux_flatten (dec : List Nat → Except String (List Nat)) (keySize : Nat)
    (cs ps : List (List Nat))
    (h : List.Forall₂ (fun c p => c.length = keySize ∧ dec c = .ok p) cs ps) :
    decryptChunksAux dec keySize cs.length cs.flatten = .ok ps.flatten := by
  induction h with
  | nil => simp [decryptChunksAux]
  | @cons c p cs' ps' hcp _ ih =>
    obtain ⟨hlen, hdec⟩ := hcp
    simp only [List.length_cons, List.flatten_cons, decryptChunksAux]
    rw [List.take_left' hlen, hdec, List.drop_left' hlen, ih]

lemma forall₂_flatten_length (keySize : Nat) (dec : List Nat → Except String (List Nat))
    (cs ps : List (List Nat))
    (h : List.Forall₂ (fun c p => c.length = keySize ∧ dec c = .ok p) cs ps) :
    cs.flatten.length = keySize * cs.length := by
  induction h with
  | nil => simp
  | @cons c p cs' ps' hcp _ ih =>
    simp only [List.flatten_cons, List.length_append, List.length_cons, hcp.1, ih]
    ring

/-- Claim C6 (amended): with a positive modulus size, RSA-OAEP decryption
rejects exactly the ciphertexts whose length is a nonzero non-multiple of
the modulus size; the empty ciphertext is accepted and yields the empty
plaintext; and any ciphertext that is a concatenation of keySize-byte
chunks each of which the RSA primitive decrypts is decrypted chunk by
chunk to the concatenation of the chunk plaintexts. -/
theorem rsa_oaep_decrypt_length_policy (keySize : Nat) (dec : List Nat → Except String (List Nat))
    (hk : 0 < keySize) :
    (∀ ct : List Nat, ct.length % keySize ≠ 0 →
      DecryptRSAOAEP keySize dec ct = .error "invalid ciphertext length for RSA decryption") ∧
    DecryptRSAOAEP keySize dec [] = .ok [] ∧
    (∀ cs ps : List (List Nat),
      List.Forall₂ (fun c p => c.length = keySize ∧ dec c = .ok p) cs ps →
      DecryptRSAOAEP keySize dec cs.flatten = .ok ps.flatten) := by
  have h0 : (0 : Nat) ≠ keySize := Nat.ne_of_lt hk
  refine ⟨?_, ?_, ?_⟩
  · intro ct hmod
    have hne : ct.length ≠ keySize := by
      intro h
      exact hmod (by simp [h])
    unfold DecryptRSAOAEP
    rw [if_neg hne, if_pos hmod]
  · unfold DecryptRSAOAEP
    rw [if_neg (by simpa using h0)]
    simp [decryptChunksAux]
  · intro cs ps h
    cases h with
    | nil =>
      unfold DecryptRSAOAEP
      rw [if_neg (by simpa using h0)]
      simp [decryptChunksAux]
    | @cons c p cs' ps' hcp htail =>
      cases htail with
      | nil =>
        have hc : (c :: ([] : List (List Nat))).flatten = c := by simp
        have hp : (p :: ([] : List (List Nat))).flatten = p := by simp
        rw [hc, hp]
        unfold DecryptRSAOAEP
        rw [if_pos hcp.1, hcp.2]
      | @cons c2 p2 cs'' ps'' hcp2 htail2 =>
        have hall : List.Forall₂ (fun c p => c.length = keySize ∧ dec c = .ok p)
            (c :: c2 :: cs'') (p :: p2 :: ps'') := .cons hcp (.cons hcp2 htail2)
        have hjl := forall₂_flatten_length keySize dec _ _ hall
        have hlen_ne : (c :: c2 :: cs'').flatten.length ≠ keySize := by
          rw [hjl]
          simp only [List.length_cons]
          intro h
          nlinarith [hk]
        have hmod : (c :: c2 :: cs'').flatten.length % keySize = 0 := by
          rw [hjl]; exact Nat.mul_mod_right _ _
        have hdiv : (c :: c2 :: cs'').flatten.length / keySize = (c :: c2 :: cs'').length := by
          rw [hjl]; exact Nat.mul_div_cancel_left _ hk
        have haux := decryptChunksAux_flatten dec keySize _ _ hall
        unfold DecryptRSAOAEP
        rw [if_neg hlen_ne, if_neg (by simpa using hmod), hdiv]
        exact haux

/-- Witness for C6: instantiates the theorem at modulus size 2 with a
per-chunk primitive that increments every byte. -/
theorem rsa_oaep_decrypt_length_policy_witness :
    DecryptRSAOAEP 2 (fun c => .ok (c.map (· + 1))) [7] =
      .error "invalid ciphertext length for RSA decryption" ∧
    DecryptRSAOAEP 2 (fun c => .ok (c.map (· + 1))) [] = .ok [] ∧
    DecryptRSAOAEP 2 (fun c => .ok (c.map (· + 1))) [1, 2, 3, 4] = .ok [2, 3, 4, 5] := by
  have h := rsa_oaep_decrypt_length_policy 2 (fun c => .ok (c.map (· + 1))) (by decide)
  refine ⟨h.1 [7] (by decide), h.2.1, ?_⟩
  have h3 := h.2.2 [[1, 2], [3, 4]] [[2, 3], [4, 5]]
    (by refine .cons ⟨by decide, rfl⟩ (.cons ⟨by decide, rfl⟩ .nil))
  simpa using h3

/-- Counterexample to claim C6 as stated: the empty ciphertext is not a
positive multiple of the modulus size, yet decryption succeeds with an
empty plaintext instead of returning an error, because the Go length
check only tests length mod keySize and zero passes it. -/
theorem rsa_oaep_decrypt_empty_counterexample :
    DecryptRSAOAEP 256 (fun _ => .error "rsa primitive was invoked") [] = .ok [] := by
  rfl

/-- Claim C7: for both AEAD algorithms, with a 12-byte nonce and an AEAD
satisfying the library round-trip contract at the derived key, decryption
inverts encryption; moreover the produced ciphertext is exactly the nonce
followed by the AEAD output at key SHA-256 of the decoded key material. -/
theorem symmetric_roundtrip (sha256 : List Nat → List Nat) (gcm chacha : AEAD)
    (km nonce p : List Nat) (hn : nonce.length = 12)
    (hgcm : ∀ n c, gcm.opn (sha256 km) n (gcm.sealBytes (sha256 km) n c) = some c)
    (hchacha : ∀ n c, chacha.opn (sha256 km) n (chacha.sealBytes (sha256 km) n c) = some c) :
    EncryptAES256GCM sha256 gcm (.ok km) nonce p =
      .ok (nonce ++ gcm.sealBytes (sha256 km) nonce p) ∧
    DecryptAES256GCM sha256 gcm (.ok km) (nonce ++ gcm.sealBytes (sha256 km) nonce p) = .ok p ∧
    EncryptChaCha20Poly1305 sha256 chacha (.ok km) nonce p =
      .ok (nonce ++ chacha.sealBytes (sha256 km) nonce p) ∧
    DecryptChaCha20Poly1305 sha256 chacha (.ok km)
      (nonce ++ chacha.sealBytes (sha256 km) nonce p) = .ok p := by
  have hlen : (nonce ++ gcm.sealBytes (sha256 km) nonce p).length =
      12 + (gcm.sealBytes (sha256 km) nonce p).length := by simp [hn]
  have hlen2 : (nonce ++ chacha.sealBytes (sha256 km) nonce p).length =
      12 + (chacha.sealBytes (sha256 km) nonce p).length := by simp [hn]
  refine ⟨rfl, ?_, rfl, ?_⟩
  · simp only [DecryptAES256GCM, aesGCMNonceSize, hlen, deriveKey]
    rw [if_neg (by omega)]
    rw [List.take_left' (by simpa using hn), List.drop_left' (by simpa using hn), hgcm]
  · simp only [DecryptChaCha20Poly1305, chachaNonceSize, hlen2, deriveKey]
    rw [if_neg (by omega)]
    rw [List.take_left' (by simpa using hn), List.drop_left' (by simpa using hn), hchacha]

/-- Witness for C7: a concrete toy AEAD (seal is the identity on the
plaintext, opn returns the sealed bytes) and a constant 32-byte hash. -/
theorem symmetric_roundtrip_witness :
    DecryptAES256GCM (fun _ => List.replicate 32 0)
      ⟨fun _ _ p => p, fun _ _ c => some c⟩ (.ok [9])
      ((List.replicate 12 0) ++ [5, 6]) = .ok [5, 6] := by
  have h := symmetric_roundtrip (fun _ => List.replicate 32 0)
    ⟨fun _ _ p => p, fun _ _ c => some c⟩ ⟨fun _ _ p => p, fun _ _ c => some c⟩
    [9] (List.replicate 12 0) [5, 6] (by decide)
    (fun _ _ => rfl) (fun _ _ => rfl)
  exact h.2.1

/-- Claim C8: with a successfully derived key, both AEAD decryptors
reject every input shorter than the 12-byte nonce with the
ciphertext-too-short error, and whenever the AEAD integrity check fails
the result is exactly the failed-to-decrypt error, never a partial
plaintext. Panic freedom corresponds to the functions being total. -/
theorem symmetric_decrypt_reject (sha256 : List Nat → List Nat) (gcm chacha : AEAD)
    (km ct : List Nat) :
    (ct.length < 12 →
      DecryptAES256GCM sha256 gcm (.ok km) ct = .error "ciphertext too short" ∧
      DecryptChaCha20Poly1305 sha256 chacha (.ok km) ct = .error "ciphertext too short") ∧
    (¬ ct.length < 12 →
      (gcm.opn (sha256 km) (ct.take 12) (ct.drop 12) = none →
        DecryptAES256GCM sha256 gcm (.ok km) ct = .error "failed to decrypt") ∧
      (chacha.opn (sha256 km) (ct.take 12) (ct.drop 12) = none →
        DecryptChaCha20Poly1305 sha256 chacha (.ok km) ct = .error "failed to decrypt")) := by
  constructor
  · intro hshort
    constructor
    · simp [DecryptAES256GCM, aesGCMNonceSize, hshort]
    · simp [DecryptChaCha20Poly1305, chachaNonceSize, hshort]
  · intro hlong
    constructor
    · intro hfail
      simp [DecryptAES256GCM, aesGCMNonceSize, hlong, deriveKey, hfail]
    · intro hfail
      simp [DecryptChaCha20Poly1305, chachaNonceSize, hlong, deriveKey, hfail]

/-- Witness for C8: an 11-byte input is rejected as too short, and a
12-byte input whose AEAD check fails yields the decryption-failed error. -/
theorem symmetric_decrypt_reject_witness :
    DecryptAES256GCM (fun _ => List.replicate 32 0)
      ⟨fun _ _ p => p, fun _ _ _ => none⟩ (.ok [])
      (List.replicate 11 0) = .error "ciphertext too short" ∧
    DecryptChaCha20Poly1305 (fun _ => List.replicate 32 0)
      ⟨fun _ _ p => p, fun _ _ _ => none⟩ (.ok [])
      (List.replicate 12 0) = .error "failed to decrypt" := by
  constructor
  · exact ((symmetric_decrypt_reject (fun _ => List.replicate 32 0)
      ⟨fun _ _ p => p, fun _ _ _ => none⟩ ⟨fun _ _ p => p, fun _ _ _ => none⟩
      [] (List.replicate 11 0)).1 (by decide)).1
  · exact (((symmetric_decrypt_reject (fun _ => List.replicate 32 0)
      ⟨fun _ _ p => p, fun _ _ _ => none⟩ ⟨fun _ _ p => p, fun _ _ _ => none⟩
      [] (List.replicate 12 0)).2 (by decide)).2 rfl)

end Mod

namespace Mod

/-! ## Configuration data model (src/app.go ModConfig and subrecords)

Go maps become association lists; YAML loading is out of scope, the
record is taken as already populated. Only the sections the verified
components read are carried. -/

/-- Token.JWT section of ModConfig. -/
structure JWTConfig where
  enabled : Bool
  secretKey : String
  issuer : String
  algorithm : String

/-- Token.Validation section of ModConfig. -/
structure TokenValidationConfig where
  enabled : Bool
  cacheStrategy : String
  cacheKeyPrefix : String

/-- Token section of ModConfig. -/
structure TokenConfig where
  jwt : JWTConfig
  validation : TokenValidationConfig

/-- Encryption.Global section. -/
structure EncryptionGlobalConfig where
  enabled : Bool
  mode : String
  algorithm : String

/-- A per-service or per-group encryption override entry. -/
structure ServiceEncryptionConfig where
  enabled : Bool
  mode : String
  algorithm : String

/-- Encryption.Whitelist section. -/
structure EncryptionWhitelist where
  services : List String
  groups : List String

/-- Encryption.Symmetric section (the key material source). -/
structure SymmetricKeyConfig where
  algorithm : String
  key : String
  keyFile : String

/-- Encryption section of ModConfig. -/
structure EncryptionConfig where
  global : EncryptionGlobalConfig
  symmetric : SymmetricKeyConfig
  services : List (String × ServiceEncryptionConfig)
  groups : List (String × ServiceEncryptionConfig)
  whitelist : EncryptionWhitelist

/-- App section of ModConfig (URL mount point and token key list). -/
structure AppSectionConfig where
  servicePathPrefix : String
  tokenKeys : List String

/-- The mod.yml configuration record. -/
structure ModConfig where
  app : AppSectionConfig
  token : TokenConfig
  encryption : EncryptionConfig

/-- Lookup in a Go map modelled as an association list. -/
def mapLookup {α : Type} (m : List (String × α)) (k : String) : Option α :=
  (m.find? (fun kv => kv.1 == k)).map (fun kv => kv.2)

/-! ## Encryption resolver (src/unnamed/part_000, EncryptionManager) -/

/-- EncryptionManager.IsEnabled: the manager holds app.GetModConfig(),
which is nil when no mod.yml was loaded, hence the Option. -/
def EncryptionManager.IsEnabled (config : Option ModConfig) : Bool :=
  match config with
  | none => false
  | some c => c.encryption.global.enabled

/-- EncryptionManager.IsServiceEnabled: global gate first, then the
whitelist, then the service override, then the group override, then the
global default. -/
def EncryptionManager.IsServiceEnabled (config : Option ModConfig)
    (serviceName groupName : String) : Bool :=
  if ¬ EncryptionManager.IsEnabled config then false
  else
    match config with
    | none => false
    | some c =>
      if c.encryption.whitelist.services.contains serviceName then false
      else if c.encryption.whitelist.groups.contains groupName then false
      else
        match mapLookup c.encryption.services serviceName with
        | some serviceConfig => serviceConfig.enabled
        | none =>
          match mapLookup c.encryption.groups groupName with
          | some groupConfig => groupConfig.enabled
          | none => c.encryption.global.enabled

/-- A ModConfig with everything disabled and empty, shared base for the
concrete instances below. -/
def baseModConfig : ModConfig :=
  { app := { servicePathPrefix := "/services", tokenKeys := ["Authorization", "X-API-Key", "mod-token"] }
    token :=
      { jwt := { enabled := false, secretKey := "", issuer := "", algorithm := "" }
        validation := { enabled := false, cacheStrategy := "", cacheKeyPrefix := "" } }
    encryption :=
      { global := { enabled := false, mode := "", algorithm := "" }
        symmetric := { algorithm := "", key := "", keyFile := "" }
        services := []
        groups := []
        whitelist := { services := [], groups := [] } } }

lemma IsServiceEnabled_unfold (c : ModConfig) (s g : String)
    (hglobal : c.encryption.global.enabled = true) :
    EncryptionManager.IsServiceEnabled (some c) s g =
      if c.encryption.whitelist.services.contains s then false
      else if c.encryption.whitelist.groups.contains g then false
      else
        match mapLookup c.encryption.services s with
        | some sc => sc.enabled
        | none =>
          match mapLookup c.encryption.groups g with
          | some gc => gc.enabled
          | none => c.encryption.global.enabled := by
  unfold EncryptionManager.IsServiceEnabled EncryptionManager.IsEnabled
  simp [hglobal]

/-- Claim C3 (amended): when global encryption is disabled (or no config
is loaded) every service resolves to disabled, regardless of service or
group overrides; when global encryption is enabled, the priority order
is whitelist (forces disabled), then the service entry by its enabled
flag, then the group entry, then the global default, which at that point
is enabled. -/
theorem encryption_resolver_priority :
    (∀ (config : Option ModConfig) (serviceName groupName : String),
      EncryptionManager.IsEnabled config = false →
      EncryptionManager.IsServiceEnabled config serviceName groupName = false) ∧
    (∀ (c : ModConfig) (serviceName groupName : String),
      c.encryption.global.enabled = true →
      (c.encryption.whitelist.services.contains serviceName = true ∨
          c.encryption.whitelist.groups.contains groupName = true →
        EncryptionManager.IsServiceEnabled (some c) serviceName groupName = false) ∧
      (c.encryption.whitelist.services.contains serviceName = false →
        c.encryption.whitelist.groups.contains groupName = false →
        (∀ sc, mapLookup c.encryption.services serviceName = some sc →
          EncryptionManager.IsServiceEnabled (some c) serviceName groupName = sc.enabled) ∧
        (mapLookup c.encryption.services serviceName = none →
          (∀ gc, mapLookup c.encryption.groups groupName = some gc →
            EncryptionManager.IsServiceEnabled (some c) serviceName groupName = gc.enabled) ∧
          (mapLookup c.encryption.groups groupName = none →
            EncryptionManager.IsServiceEnabled (some c) serviceName groupName = true)))) := by
  constructor
  · intro config serviceName groupName h
    unfold EncryptionManager.IsServiceEnabled
    rw [h]
    simp
  · intro c serviceName groupName hglobal
    constructor
    · intro hwl
      rw [IsServiceEnabled_unfold c serviceName groupName hglobal]
      rcases hwl with hws | hwg
      · rw [hws]
        simp
      · rw [hwg]
        simp
    · intro hws hwg
      constructor
      · intro sc hsc
        rw [IsServiceEnabled_unfold c serviceName groupName hglobal, hws, hwg, hsc]
        simp
      · intro hnone
        constructor
        · intro gc hgc
          rw [IsServiceEnabled_unfold c serviceName groupName hglobal, hws, hwg, hnone, hgc]
          simp
        · intro hgnone
          rw [IsServiceEnabled_unfold c serviceName groupName hglobal, hws, hwg, hnone, hgnone]
          simp [hglobal]

/-- Concrete configuration for the C3 witness: global encryption on, one
service entry that switches encryption off for the pay service. -/
def cfgC3 : ModConfig :=
  { baseModConfig with encryption :=
    { baseModConfig.encryption with
        global := { enabled := true, mode := "", algorithm := "" }
        services := [("pay", { enabled := false, mode := "", algorithm := "" })] } }

/-- Witness for C3: under cfgC3 the service entry decides (off), while a
service without an entry falls back to the enabled global default. -/
theorem encryption_resolver_priority_witness :
    EncryptionManager.IsServiceEnabled (some cfgC3) "pay" "core" = false ∧
    EncryptionManager.IsServiceEnabled (some cfgC3) "user" "core" = true := by
  constructor
  · exact ((encryption_resolver_priority.2 cfgC3 "pay" "core" rfl).2 rfl rfl).1
      { enabled := false, mode := "", algorithm := "" } rfl
  · exact (((encryption_resolver_priority.2 cfgC3 "user" "core" rfl).2 rfl rfl).2 rfl).2 rfl

/-- Counterexample to claim C3 as stated: a service entry with enabled
equal to true does not make encryption enabled when the global flag is
false, because IsServiceEnabled returns false immediately whenever
IsEnabled is false, before consulting the service override. -/
theorem encryption_resolver_service_override_counterexample :
    EncryptionManager.IsServiceEnabled
      (some { baseModConfig with encryption :=
        { baseModConfig.encryption with
            global := { enabled := false, mode := "", algorithm := "" }
            services := [("pay", { enabled := true, mode := "symmetric", algorithm := "AES256-GCM" })] } })
      "pay" "" = false := by
  rfl

end Mod

namespace Mod

/-! ## JSON values and the permission evaluator (src/unnamed/part_002)

Go values of type interface produced by encoding/json are modelled by
the Json inductive; numbers are rationals standing for float64 (no
claim below depends on float rounding). -/

inductive Json where
  | null : Json
  | bool : Bool → Json
  | num : Rat → Json
  | str : String → Json
  | arr : List Json → Json
  | obj : List (String × Json) → Json

/-- Whether a value is the Go nil interface (also produced by JSON null). -/
def Json.isNull : Json → Bool
  | .null => true
  | _ => false

/-- Model of the Go formatting verb v of package fmt on these values.
Scalar forms follow Go; the element-wise printing of slices and maps is
abbreviated, no verified claim depends on it. -/
def Json.goString : Json → String
  | .null => "<nil>"
  | .bool b => if b then "true" else "false"
  | .num q => if q.den = 1 then toString q.num else toString q
  | .str s => s
  | .arr _ => "[...]"
  | .obj _ => "map[...]"

/-- Model of the Go equality operator on two interface values: equal
dynamic scalar type and equal value. Comparing two values of the same
non-comparable dynamic type panics in Go; that configuration is modelled
as false and is not relied on by any theorem below. -/
def goEq : Json → Json → Bool
  | .null, .null => true
  | .bool a, .bool b => a == b
  | .num a, .num b => a == b
  | .str a, .str b => a == b
  | _, _ => false

/-- Model of strings.Split with a one-character separator, on character
lists (structural recursion so that terms evaluate by reduction). -/
def splitOnChar (sep : Char) : List Char → List (List Char)
  | [] => [[]]
  | c :: rest =>
    let r := splitOnChar sep rest
    if c == sep then [] :: r
    else
      match r with
      | [] => [[c]]
      | h :: t => (c :: h) :: t

/-- Digit-string value; none when a non-digit occurs. -/
def decDigits? (cs : List Char) : Option Nat :=
  cs.foldl
    (fun acc c =>
      match acc with
      | none => none
      | some n => if c.isDigit then some (n * 10 + (c.toNat - 48)) else none)
    (some 0)

/-- Model of strconv.ParseFloat on plain decimal forms (optional sign,
integer part, optional fraction); exponent notation is not modelled and
no claim depends on it. -/
def parseGoFloat (s : String) : Option Rat :=
  let cs := s.toList
  let signAndRest : Rat × List Char :=
    match cs with
    | '-' :: r => (-1, r)
    | '+' :: r => (1, r)
    | r => (1, r)
  match splitOnChar '.' signAndRest.2 with
  | [intPart] =>
    if intPart.isEmpty then none
    else (decDigits? intPart).map (fun n => signAndRest.1 * n)
  | [intPart, fracPart] =>
    if intPart.isEmpty && fracPart.isEmpty then none
    else
      match decDigits? intPart, decDigits? fracPart with
      | some i, some f =>
        some (signAndRest.1 * ((i : Rat) + (f : Rat) / ((10 : Rat) ^ fracPart.length)))
      | _, _ => none
  | _ => none

/-- toFloat64 of part_002: JSON numbers arrive as the single num
constructor (Go float64); strings go through ParseFloat; everything else
is not convertible. -/
def toFloat64 : Json → Option Rat
  | .num v => some v
  | .str v => parseGoFloat v
  | _ => none

/-- valuesEqual of part_002: direct Go equality, then equality of the
formatted strings, then numeric equality after conversion. -/
def valuesEqual (a b : Json) : Bool :=
  if goEq a b then true
  else if a.goString == b.goString then true
  else
    match toFloat64 a, toFloat64 b with
    | some aNum, some bNum => aNum == bNum
    | _, _ => false

/-- compareNumbers of part_002. -/
def compareNumbers (fieldValue expectedValue : Json) (operator : String) : Bool :=
  match toFloat64 fieldValue, toFloat64 expectedValue with
  | some fieldNum, some expectedNum =>
    match operator with
    | "gt" => decide (fieldNum > expectedNum)
    | "gte" => decide (fieldNum ≥ expectedNum)
    | "lt" => decide (fieldNum < expectedNum)
    | "lte" => decide (fieldNum ≤ expectedNum)
    | _ => false
  | _, _ => false

/-- compareValues of part_002. -/
def compareValues (fieldValue expectedValue : Json) (operator : String) : Bool :=
  if fieldValue.isNull && expectedValue.isNull then operator == "eq"
  else if fieldValue.isNull || expectedValue.isNull then operator == "ne"
  else
    match operator with
    | "eq" => valuesEqual fieldValue expectedValue
    | "ne" => ! valuesEqual fieldValue expectedValue
    | "gt" => compareNumbers fieldValue expectedValue operator
    | "gte" => compareNumbers fieldValue expectedValue operator
    | "lt" => compareNumbers fieldValue expectedValue operator
    | "lte" => compareNumbers fieldValue expectedValue operator
    | _ => false

/-- valueInSlice of part_002: the expected value must be a sequence. -/
def valueInSlice (fieldValue expectedValue : Json) : Bool :=
  match expectedValue with
  | .arr xs => xs.any (fun x => valuesEqual fieldValue x)
  | _ => false

/-- Substring test on character lists (model of strings.Contains). -/
def containsSub (s sub : List Char) : Bool :=
  (List.range (s.length + 1)).any (fun i => (s.drop i).take sub.length == sub)

/-- stringContains of part_002. -/
def stringContains (fieldValue expectedValue : Json) : Bool :=
  containsSub fieldValue.goString.toList expectedValue.goString.toList

/-- The walk of getNestedValue over the split path: intermediate parts
must resolve to nested maps, the last part yields the value or nil. -/
def getNestedWalk : List (String × Json) → List String → Json
  | _, [] => .null
  | current, [part] =>
    match mapLookup current part with
    | some val => val
    | none => .null
  | current, part :: rest =>
    match mapLookup current part with
    | some (.obj nextMap) => getNestedWalk nextMap rest
    | _ => .null

/-- getNestedValue of part_002, dot-separated path lookup (the split is
the model of strings.Split on the dot separator). -/
def getNestedValue (data : List (String × Json)) (fieldPath : String) : Json :=
  if fieldPath = "" then .null
  else getNestedWalk data ((splitOnChar '.' fieldPath.toList).map (fun cs => String.mk cs))

/-- PermissionRule of the data model. -/
structure PermissionRule where
  field : String
  operator : String
  value : Json

/-- PermissionConfig of the data model. -/
structure PermissionConfig where
  rules : List PermissionRule
  logic : String

/-- App.evaluatePermissionRule of part_002. -/
def evaluatePermissionRule (data : List (String × Json)) (rule : PermissionRule) : Bool :=
  let fieldValue := getNestedValue data rule.field
  match rule.operator with
  | "eq" => compareValues fieldValue rule.value "eq"
  | "ne" => compareValues fieldValue rule.value "ne"
  | "gt" => compareValues fieldValue rule.value "gt"
  | "gte" => compareValues fieldValue rule.value "gte"
  | "lt" => compareValues fieldValue rule.value "lt"
  | "lte" => compareValues fieldValue rule.value "lte"
  | "in" => valueInSlice fieldValue rule.value
  | "not_in" => ! valueInSlice fieldValue rule.value
  | "contains" => stringContains fieldValue rule.value
  | "exists" => ! fieldValue.isNull
  | _ => false

/-- The AND loop of CheckServicePermission: every rule must hold, with
early exit on the first failure. -/
def evalRulesAnd (data : List (String × Json)) : List PermissionRule → Bool
  | [] => true
  | rule :: rest =>
    if ¬ evaluatePermissionRule data rule then false else evalRulesAnd data rest

/-- The OR loop of CheckServicePermission: any rule suffices, with early
exit on the first success. -/
def evalRulesOr (data : List (String × Json)) : List PermissionRule → Bool
  | [] => false
  | rule :: rest =>
    if evaluatePermissionRule data rule then true else evalRulesOr data rest

/-! ## App state, token store access (src/app.go) -/

/-- The configured cache backend (BigCache, BadgerDB or Redis in source,
collapsed into one abstract key-value store): stored entries plus which
keys currently fail on read or on write, modelling transient backend
errors. -/
structure CacheBackend where
  entries : List (String × List Nat)
  readFails : String → Bool
  writeFails : String → Bool

/-- The application state: loaded configuration (nil when absent), the
token cache backend, the external JSON decoder into a string-keyed map,
and the configured token keys. -/
structure App where
  modConfig : Option ModConfig
  backend : CacheBackend
  unmarshal : List Nat → Option (List (String × Json))
  tokenKeys : List String

/-- Whether the configured strategy selects one of the three backends
(the corresponding handle is initialised when validation is enabled). -/
def validStrategy (s : String) : Bool :=
  s == "bigcache" || s == "badger" || s == "redis"

/-- App.GetTokenData: requires validation enabled, prefixes the key,
reads the configured backend; absence gives token-not-found, other
backend failures surface as errors. -/
def GetTokenData (app : App) (token : String) : Except String (List Nat) :=
  match app.modConfig with
  | none => .error "token validation not enabled"
  | some cfg =>
    if ¬ cfg.token.validation.enabled then .error "token validation not enabled"
    else
      let cacheKey := cfg.token.validation.cacheKeyPrefix ++ token
      if validStrategy cfg.token.validation.cacheStrategy then
        if app.backend.readFails cacheKey then .error "failed to get token data"
        else
          match mapLookup app.backend.entries cacheKey with
          | some data => .ok data
          | none => .error "token not found"
      else .error "no valid cache strategy configured for token data retrieval"

/-- App.CheckServicePermission of part_002: nil or empty rule set allows;
then principal attributes are fetched from the token store and decoded;
failure of either denies; finally the rules are combined under the
configured logic, AND by default. -/
def CheckServicePermission (app : App) (token : String)
    (permission : Option PermissionConfig) : Bool :=
  match permission with
  | none => true
  | some p =>
    if p.rules.length = 0 then true
    else
      match GetTokenData app token with
      | .error _ => false
      | .ok tokenData =>
        match app.unmarshal tokenData with
        | none => false
        | some data =>
          let logic := if p.logic = "" then "AND" else p.logic
          if logic = "OR" then evalRulesOr data p.rules
          else evalRulesAnd data p.rules

end Mod

namespace Mod

/-! ## Theorems for claim C9 -/

lemma evalRulesAnd_eq_all (data : List (String × Json)) (rules : List PermissionRule) :
    evalRulesAnd data rules = rules.all (fun r => evaluatePermissionRule data r) := by
  induction rules with
  | nil => rfl
  | cons rule rest ih =>
    simp only [evalRulesAnd, List.all_cons, ih]
    by_cases h : evaluatePermissionRule data rule = true
    · simp [h]
    · simp [Bool.not_eq_true] at h
      simp [h]

lemma evalRulesOr_eq_any (data : List (String × Json)) (rules : List PermissionRule) :
    evalRulesOr data rules = rules.any (fun r => evaluatePermissionRule data r) := by
  induction rules with
  | nil => rfl
  | cons rule rest ih =>
    simp only [evalRulesOr, List.any_cons, ih]
    by_cases h : evaluatePermissionRule data rule = true
    · simp [h]
    · simp [Bool.not_eq_true] at h
      simp [h]

/-- Claim C9: a nil permission or an empty rule list allows; when the
principal attributes were retrieved and decoded, the rules combine as a
conjunction under the default AND logic and as a disjunction under OR
(for a nonempty rule list, the empty case being decided first); a rule
with an unrecognised operator evaluates to false. -/
theorem permission_rule_algebra :
    (∀ app token, CheckServicePermission app token none = true) ∧
    (∀ app token p, p.rules = [] → CheckServicePermission app token (some p) = true) ∧
    (∀ (app : App) (token : String) (p : PermissionConfig) tokenData data,
      GetTokenData app token = .ok tokenData →
      app.unmarshal tokenData = some data →
      (p.logic ≠ "OR" → CheckServicePermission app token (some p) =
        p.rules.all (fun r => evaluatePermissionRule data r)) ∧
      (p.logic = "OR" → p.rules ≠ [] → CheckServicePermission app token (some p) =
        p.rules.any (fun r => evaluatePermissionRule data r))) ∧
    (∀ data rule,
      rule.operator ∉ ["eq", "ne", "gt", "gte", "lt", "lte", "in", "not_in",
        "contains", "exists"] →
      evaluatePermissionRule data rule = false) := by
  refine ⟨fun app token => rfl, ?_, ?_, ?_⟩
  · intro app token p hp
    simp [CheckServicePermission, hp]
  · intro app token p tokenData data hget hun
    constructor
    · intro hlogic
      rcases hrules : p.rules with _ | ⟨rule, rest⟩
      · simp [CheckServicePermission, hrules]
      · have hor : (if p.logic = "" then "AND" else p.logic) ≠ "OR" := by
          by_cases h : p.logic = ""
          · simp [h]
          · simp [h, hlogic]
        simp only [CheckServicePermission, hrules, List.length_cons, hget, hun]
        rw [if_neg (by simp), if_neg hor, ← hrules, evalRulesAnd_eq_all]
    · intro hlogic hne
      rcases hrules : p.rules with _ | ⟨rule, rest⟩
      · exact absurd hrules hne
      · have hor : (if p.logic = "" then "AND" else p.logic) = "OR" := by
          simp [hlogic]
        simp only [CheckServicePermission, hrules, List.length_cons, hget, hun]
        rw [if_neg (by simp), if_pos hor, ← hrules, evalRulesOr_eq_any]
  · intro data rule h
    simp only [List.mem_cons, List.not_mem_nil, or_false, not_or] at h
    obtain ⟨h1, h2, h3, h4, h5, h6, h7, h8, h9, h10⟩ := h
    unfold evaluatePermissionRule
    split <;> simp_all

/-- Concrete configuration and app for the C9 witness: validation on,
one stored token blob decoding to a nested principal map. -/
def cfgC9 : ModConfig :=
  { baseModConfig with token :=
    { jwt := { enabled := false, secretKey := "", issuer := "", algorithm := "" }
      validation := { enabled := true, cacheStrategy := "bigcache", cacheKeyPrefix := "tk:" } } }

/-- Concrete app for the C9 witness. -/
def appC9 : App :=
  { modConfig := some cfgC9
    backend :=
      { entries := [("tk:tok", [1])]
        readFails := fun _ => false
        writeFails := fun _ => false }
    unmarshal := fun b =>
      if b == [1] then some [("user", Json.obj [("role", Json.str "admin")])] else none
    tokenKeys := ["Authorization", "X-API-Key", "mod-token"] }

/-- Witness for C9: the four parts of the theorem at concrete inputs. -/
theorem permission_rule_algebra_witness :
    CheckServicePermission appC9 "tok" none = true ∧
    CheckServicePermission appC9 "tok" (some { rules := [], logic := "AND" }) = true ∧
    CheckServicePermission appC9 "tok"
      (some { rules := [{ field := "user.role", operator := "eq", value := Json.str "admin" }],
              logic := "" }) = true ∧
    evaluatePermissionRule [] { field := "x", operator := "frobnicate", value := Json.null } = false := by
  refine ⟨permission_rule_algebra.1 appC9 "tok",
    permission_rule_algebra.2.1 appC9 "tok" _ rfl, ?_, ?_⟩
  · have h := (permission_rule_algebra.2.2.1 appC9 "tok"
      { rules := [{ field := "user.role", operator := "eq", value := Json.str "admin" }],
        logic := "" }
      [1] [("user", Json.obj [("role", Json.str "admin")])] rfl rfl).1 (by decide)
    rw [h]
    rfl
  · exact permission_rule_algebra.2.2.2 []
      { field := "x", operator := "frobnicate", value := Json.null } (by decide)

end Mod

namespace Mod

/-! ## JWT manager (src/jwt.go)

The golang-jwt library is external: a parse function maps the token
string to its parsed representation (none for a malformed token), and
the registered-claim checks the library performs (signature, expiry,
not-before) are spelled out where the source calls ParseWithClaims.
Error strings are abridged to stable sentinels. -/

/-- The application claims plus the registered claims the source reads. -/
structure JWTClaimsRec where
  userId : String
  username : String
  email : String
  role : String
  issuer : String
  subject : String
  exp : Int
  nbf : Int

/-- Parsed form of a token string: header algorithm, whether the
signature verifies under the configured secret, and the claims. -/
structure TokenRep where
  method : String
  sigValid : Bool
  claims : JWTClaimsRec

/-- JWTManager.getSigningMethod: unsupported algorithms fall back to
HS256 with a warning. -/
def getSigningMethod (algorithm : String) : String :=
  match algorithm with
  | "HS256" => "HS256"
  | "HS384" => "HS384"
  | "HS512" => "HS512"
  | _ => "HS256"

/-- JWTManager.IsEnabled: config non-nil and the JWT gate on. -/
def JWTManager.IsEnabled (config : Option ModConfig) : Bool :=
  match config with
  | none => false
  | some c => c.token.jwt.enabled

/-- JWTManager.ValidateToken: gate and secret checks, then the library
parse (keyfunc rejecting an unexpected signing method, signature and
exp/nbf validation), then the issuer check of the source. -/
def ValidateToken (config : Option ModConfig) (now : Int)
    (rep : String → Option TokenRep) (tokenString : String) :
    Except String JWTClaimsRec :=
  if ¬ JWTManager.IsEnabled config then .error "JWT is not enabled"
  else
    match config with
    | none => .error "JWT is not enabled"
    | some cfg =>
      if cfg.token.jwt.secretKey = "" then .error "JWT secret key is not configured"
      else
        match rep tokenString with
        | none => .error "invalid token: token is malformed"
        | some t =>
          if t.method ≠ getSigningMethod cfg.token.jwt.algorithm then
            .error "invalid token: unexpected signing method"
          else if ¬ t.sigValid then .error "invalid token: signature is invalid"
          else if t.claims.exp < now then .error "invalid token: token is expired"
          else if now < t.claims.nbf then .error "invalid token: token is not valid yet"
          else if t.claims.issuer ≠ cfg.token.jwt.issuer then .error "invalid token issuer"
          else .ok t.claims

/-- App.SetToken: a no-op success when no config or validation disabled;
otherwise prefix the key and write to the configured backend, surfacing
write errors. The value argument stands for the marshalled JSON blob. -/
def SetToken (app : App) (token : String) (value : List Nat) : Except String App :=
  match app.modConfig with
  | none => .ok app
  | some cfg =>
    if ¬ cfg.token.validation.enabled then .ok app
    else
      let cacheKey := cfg.token.validation.cacheKeyPrefix ++ token
      if validStrategy cfg.token.validation.cacheStrategy then
        if app.backend.writeFails cacheKey then .error "failed to set token"
        else
          .ok { app with backend :=
            { app.backend with entries := (cacheKey, value) :: app.backend.entries } }
      else .error "no valid cache strategy configured for token storage"

/-- Marshalled bytes of the blacklist entry map (revoked time and user
id), the output of the external json.Marshal; the stored value is never
read back, only its presence matters. -/
def blacklistEntryBytes : List Nat := [123]

/-- JWTManager.RevokeToken: requires the JWT gate; any validation
failure aborts with the cannot-revoke error; otherwise, when token
validation is enabled, a blacklist entry keyed by prefix, the literal
blacklist marker and the raw token string is written through SetToken,
and a write failure is only logged — the method still returns ok. -/
def RevokeToken (app : App) (now : Int) (rep : String → Option TokenRep)
    (tokenString : String) : Except String App :=
  if ¬ JWTManager.IsEnabled app.modConfig then .error "JWT is not enabled"
  else
    match ValidateToken app.modConfig now rep tokenString with
    | .error e => .error ("cannot revoke invalid token: " ++ e)
    | .ok _ =>
      match app.modConfig with
      | none => .ok app
      | some cfg =>
        if cfg.token.validation.enabled then
          let blacklistKey :=
            cfg.token.validation.cacheKeyPrefix ++ "blacklist:" ++ tokenString
          match SetToken app blacklistKey blacklistEntryBytes with
          | .error _ => .ok app
          | .ok app2 => .ok app2
        else .ok app

/-- JWTManager.IsTokenBlacklisted: false unless both the JWT gate and
token validation are enabled; otherwise an existence check of the
blacklist key through GetTokenData. -/
def IsTokenBlacklisted (app : App) (tokenString : String) : Bool :=
  if ¬ JWTManager.IsEnabled app.modConfig then false
  else
    match app.modConfig with
    | none => false
    | some cfg =>
      if ¬ cfg.token.validation.enabled then false
      else
        let blacklistKey :=
          cfg.token.validation.cacheKeyPrefix ++ "blacklist:" ++ tokenString
        match GetTokenData app blacklistKey with
        | .ok _ => true
        | .error _ => false

end Mod

namespace Mod

/-! ## Theorems for claims C4 and C10 -/

/-- Concrete configuration for the C4 instances: JWT on with a secret,
validation on with the bigcache strategy. -/
def cfgC4 : ModConfig :=
  { baseModConfig with token :=
    { jwt := { enabled := true, secretKey := "k", issuer := "mod", algorithm := "HS256" }
      validation := { enabled := true, cacheStrategy := "bigcache", cacheKeyPrefix := "tk:" } } }

/-- Concrete app for the C4 instances, with an empty store and a backend
that never fails. -/
def appC4 : App :=
  { modConfig := some cfgC4
    backend := { entries := [], readFails := fun _ => false, writeFails := fun _ => false }
    unmarshal := fun _ => none
    tokenKeys := ["Authorization", "X-API-Key", "mod-token"] }

/-- Parse function for the C4 instances: one well-formed, correctly
signed token whose expiry is in the past relative to the chosen now. -/
def repC4 : String → Option TokenRep := fun s =>
  if s == "expired" then
    some { method := "HS256", sigValid := true
           claims := { userId := "1", username := "alice", email := "", role := "admin",
                       issuer := "mod", subject := "1", exp := 100, nbf := 0 } }
  else none

/-- Counterexample to claim C4 as stated: revoking a syntactically valid
but expired token does not attempt to blacklist it; RevokeToken forwards
the validation failure (the external library rejects an expired token
during parse) and returns an error instead of ok. -/
theorem revoke_expired_token_counterexample :
    RevokeToken appC4 200 repC4 "expired" =
      .error "cannot revoke invalid token: invalid token: token is expired" := by
  rfl

/-- Claim C4 (amended): RevokeToken validates first and returns an error
without touching the store for any token failing validation — expired
tokens included, since the library validation rejects them; only for a
token passing validation is a blacklist entry stored (keyed by the
configured prefix and the raw token string), and then a write failure
still yields ok. -/
theorem revoke_validates_before_blacklisting :
    (∀ (app : App) (now : Int) (rep : String → Option TokenRep) (tokenString e : String),
      JWTManager.IsEnabled app.modConfig = true →
      ValidateToken app.modConfig now rep tokenString = .error e →
      RevokeToken app now rep tokenString = .error ("cannot revoke invalid token: " ++ e)) ∧
    (∀ (app : App) (cfg : ModConfig) (now : Int) (rep : String → Option TokenRep)
        (tokenString : String) (claims : JWTClaimsRec),
      app.modConfig = some cfg →
      ValidateToken app.modConfig now rep tokenString = .ok claims →
      cfg.token.validation.enabled = true →
      validStrategy cfg.token.validation.cacheStrategy = true →
      app.backend.writeFails (cfg.token.validation.cacheKeyPrefix ++
        (cfg.token.validation.cacheKeyPrefix ++ "blacklist:" ++ tokenString)) = false →
      RevokeToken app now rep tokenString =
        .ok { app with backend :=
          { app.backend with entries :=
            (cfg.token.validation.cacheKeyPrefix ++
              (cfg.token.validation.cacheKeyPrefix ++ "blacklist:" ++ tokenString),
              blacklistEntryBytes) :: app.backend.entries } }) := by
  constructor
  · intro app now rep tokenString e hen hval
    unfold RevokeToken
    rw [hen, hval]
    simp
  · intro app cfg now rep tokenString claims hcfg hval hen hstrat hwf
    have hjwt : JWTManager.IsEnabled app.modConfig = true := by
      by_contra h
      rw [Bool.not_eq_true] at h
      unfold ValidateToken at hval
      rw [h] at hval
      simp at hval
    rw [hcfg] at hjwt hval
    simp [RevokeToken, SetToken, hjwt, hval, hcfg, hen, hstrat, hwf]

/-- Witness for C4: the error branch at the concrete expired token of
the counterexample, and the success branch at a live token. -/
theorem revoke_validates_before_blacklisting_witness :
    RevokeToken appC4 200 repC4 "expired" =
      .error "cannot revoke invalid token: invalid token: token is expired" ∧
    RevokeToken appC4 50 repC4 "expired" =
      .ok { appC4 with backend :=
        { appC4.backend with entries := [("tk:tk:blacklist:expired", blacklistEntryBytes)] } } := by
  constructor
  · exact revoke_validates_before_blacklisting.1 appC4 200 repC4 "expired"
      "invalid token: token is expired" rfl rfl
  · exact revoke_validates_before_blacklisting.2 appC4 cfgC4 50 repC4 "expired"
      { userId := "1", username := "alice", email := "", role := "admin",
        issuer := "mod", subject := "1", exp := 100, nbf := 0 } rfl rfl rfl rfl rfl

/-- Claim C10: for a token that passes validation, RevokeToken returns
ok even when no blacklist entry can be stored — either because token
validation is disabled (the write is skipped entirely) or because the
backend write fails (the failure is only logged); in both situations
IsTokenBlacklisted afterwards reports false for that token, so a token
reported as revoked is still accepted. -/
theorem revoke_reports_ok_despite_missing_blacklist :
    ∀ (app : App) (cfg : ModConfig) (now : Int) (rep : String → Option TokenRep)
      (tokenString : String) (claims : JWTClaimsRec),
      app.modConfig = some cfg →
      ValidateToken app.modConfig now rep tokenString = .ok claims →
      (cfg.token.validation.enabled = false →
        RevokeToken app now rep tokenString = .ok app ∧
        IsTokenBlacklisted app tokenString = false) ∧
      (cfg.token.validation.enabled = true →
        app.backend.writeFails (cfg.token.validation.cacheKeyPrefix ++
          (cfg.token.validation.cacheKeyPrefix ++ "blacklist:" ++ tokenString)) = true →
        mapLookup app.backend.entries (cfg.token.validation.cacheKeyPrefix ++
          (cfg.token.validation.cacheKeyPrefix ++ "blacklist:" ++ tokenString)) = none →
        RevokeToken app now rep tokenString = .ok app ∧
        IsTokenBlacklisted app tokenString = false) := by
  intro app cfg now rep tokenString claims hcfg hval
  have hjwt : JWTManager.IsEnabled app.modConfig = true := by
    by_contra h
    rw [Bool.not_eq_true] at h
    unfold ValidateToken at hval
    rw [h] at hval
    simp at hval
  rw [hcfg] at hjwt hval
  constructor
  · intro hdis
    constructor
    · simp [RevokeToken, hjwt, hval, hcfg, hdis]
    · simp [IsTokenBlacklisted, hjwt, hcfg, hdis]
  · intro hen hwf hlook
    constructor
    · by_cases hstrat : validStrategy cfg.token.validation.cacheStrategy = true
      · simp [RevokeToken, SetToken, hjwt, hval, hcfg, hen, hstrat, hwf]
      · simp [RevokeToken, SetToken, hjwt, hval, hcfg, hen, hstrat]
    · by_cases hstrat : validStrategy cfg.token.validation.cacheStrategy = true
      · by_cases hrf : app.backend.readFails (cfg.token.validation.cacheKeyPrefix ++
            (cfg.token.validation.cacheKeyPrefix ++ "blacklist:" ++ tokenString)) = true
        · simp [IsTokenBlacklisted, GetTokenData, hjwt, hcfg, hen, hstrat, hrf]
        · simp [IsTokenBlacklisted, GetTokenData, hjwt, hcfg, hen, hstrat, hrf, hlook]
      · simp [IsTokenBlacklisted, GetTokenData, hjwt, hcfg, hen, hstrat]

/-- Concrete configuration for the C10 witness: JWT on, validation off. -/
def cfgC10 : ModConfig :=
  { baseModConfig with token :=
    { jwt := { enabled := true, secretKey := "k", issuer := "mod", algorithm := "HS256" }
      validation := { enabled := false, cacheStrategy := "", cacheKeyPrefix := "" } } }

/-- Concrete app for the C10 witness. -/
def appC10 : App :=
  { modConfig := some cfgC10
    backend := { entries := [], readFails := fun _ => false, writeFails := fun _ => false }
    unmarshal := fun _ => none
    tokenKeys := ["Authorization", "X-API-Key", "mod-token"] }

/-- Parse function for the C10 witness: one live, correctly signed token. -/
def repC10 : String → Option TokenRep := fun s =>
  if s == "live" then
    some { method := "HS256", sigValid := true
           claims := { userId := "2", username := "bob", email := "", role := "user",
                       issuer := "mod", subject := "2", exp := 1000, nbf := 0 } }
  else none

/-- Witness for C10: with validation disabled, revoking a live token
returns ok while IsTokenBlacklisted stays false. -/
theorem revoke_reports_ok_despite_missing_blacklist_witness :
    RevokeToken appC10 10 repC10 "live" = .ok appC10 ∧
    IsTokenBlacklisted appC10 "live" = false := by
  exact (revoke_reports_ok_despite_missing_blacklist appC10 cfgC10 10 repC10 "live"
    { userId := "2", username := "bob", email := "", role := "user",
      issuer := "mod", subject := "2", exp := 1000, nbf := 0 } rfl rfl).1 rfl

end Mod

namespace Mod

/-! ## Token extraction (src/app.go parseToken, src/jwt.go
JWTManager.ExtractTokenFromRequest)

Request header lookup (the Get accessor) and query-parameter lookup
(the Query accessor) are passed as functions from names to values, the
empty string meaning absent; query lookup is case sensitive in the
underlying HTTP library, header lookup is normalised by it. -/

/-- The default token key list installed when app.token_keys is not
configured (src/app.go line 571). -/
def defaultTokenKeys : List String := ["Authorization", "X-API-Key", "mod-token"]

/-- parseToken of src/app.go: return the token cached in the request
context if present; otherwise the first non-empty header value among the
configured keys; only when every header was empty, the first non-empty
query value among the same keys. No Bearer handling occurs here. The
write-back of the found value into the context cache is not modelled
(it is never read by the claims). -/
def parseToken (headers query : String → String) (cachedToken : Option String)
    (keys : List String) : String :=
  match cachedToken with
  | some t => t
  | none =>
    let value :=
      match keys.find? (fun key => headers key != "") with
      | some key => headers key
      | none => ""
    if value = "" then
      match keys.find? (fun key => query key != "") with
      | some key => query key
      | none => ""
    else value

/-- JWTManager.ExtractTokenFromRequest of src/jwt.go: the Authorization
header is consulted first, stripping a Bearer prefix when the header is
strictly longer than the prefix (Go slices bytes; ASCII slicing is
modelled on the character list); otherwise the configured token keys
(nil-able) are scanned as headers and then as query parameters. -/
def ExtractTokenFromRequest (headers query : String → String)
    (tokenKeys : Option (List String)) : String :=
  if headers "Authorization" ≠ "" then
    if (headers "Authorization").length > 7 ∧
        (headers "Authorization").data.take 7 = "Bearer ".data then
      String.mk ((headers "Authorization").data.drop 7)
    else headers "Authorization"
  else
    match tokenKeys with
    | none => ""
    | some keys =>
      match keys.find? (fun key => headers key != "") with
      | some key => headers key
      | none =>
        match keys.find? (fun key => query key != "") with
        | some key => query key
        | none => ""

end Mod

namespace Mod

/-! ## Theorems for claim C2 -/

lemma bearer_append_ne_empty (t : String) : "Bearer " ++ t ≠ "" := by
  intro h
  have hd : ("Bearer " ++ t).data = "".data := by rw [h]
  rw [String.data_append] at hd
  simp at hd

lemma bearer_append_data (t : String) : ("Bearer " ++ t).data = "Bearer ".data ++ t.data :=
  String.data_append ..

/-- Claim C2 (amended): the dispatcher extractor parseToken scans the
configured header names first and falls back to same-named query
parameters, but never strips a Bearer prefix, so the Authorization
header carrying Bearer and a token extracts the full Bearer-prefixed
string; only JWTManager.ExtractTokenFromRequest strips the prefix, and
only on the literal Authorization header; a configured header such as
X-API-Key and an exact-case same-named query parameter yield the bare
token under both extractors. -/
theorem token_extraction_behavior :
    (∀ (headers query : String → String) (t : String), t ≠ "" →
      headers "Authorization" = "Bearer " ++ t →
      ExtractTokenFromRequest headers query (some defaultTokenKeys) = t ∧
      parseToken headers query none defaultTokenKeys = "Bearer " ++ t) ∧
    (∀ (headers query : String → String) (t : String), t ≠ "" →
      headers "Authorization" = "" → headers "X-API-Key" = t →
      ExtractTokenFromRequest headers query (some defaultTokenKeys) = t ∧
      parseToken headers query none defaultTokenKeys = t) ∧
    (∀ (headers query : String → String) (t : String), t ≠ "" →
      (∀ k, headers k = "") → query "Authorization" = t →
      ExtractTokenFromRequest headers query (some defaultTokenKeys) = t ∧
      parseToken headers query none defaultTokenKeys = t) := by
  have hblen : ("Bearer ".data).length = 7 := by decide
  refine ⟨?_, ?_, ?_⟩
  · intro headers query t ht hauth
    have htdata : t.data ≠ [] := by
      intro h
      apply ht
      apply String.ext
      rw [h]
    have hne : headers "Authorization" ≠ "" := by rw [hauth]; exact bearer_append_ne_empty t
    have hlen : (headers "Authorization").length > 7 := by
      rw [hauth]
      show ("Bearer " ++ t).data.length > 7
      rw [bearer_append_data, List.length_append, hblen]
      have := List.length_pos.mpr htdata
      omega
    have htake : (headers "Authorization").data.take 7 = "Bearer ".data := by
      rw [hauth, bearer_append_data, List.take_left' hblen]
    have hdrop : (headers "Authorization").data.drop 7 = t.data := by
      rw [hauth, bearer_append_data, List.drop_left' hblen]
    constructor
    · unfold ExtractTokenFromRequest
      rw [if_pos hne, if_pos ⟨hlen, htake⟩, hdrop]
    · unfold parseToken
      have hbb : (("Bearer " ++ t) != "") = true := by
        rw [bne_iff_ne]; exact bearer_append_ne_empty t
      simp only [defaultTokenKeys, List.find?, hauth, hbb]
      rw [if_neg (bearer_append_ne_empty t)]
  · intro headers query t ht hauth hapi
    have hbne : (t != "") = true := by rw [bne_iff_ne]; exact ht
    have hemp : (("" : String) != "") = false := by decide
    constructor
    · unfold ExtractTokenFromRequest
      rw [hauth, if_neg (by simp)]
      simp only [defaultTokenKeys, List.find?, hauth, hapi, hbne, hemp]
    · unfold parseToken
      simp only [defaultTokenKeys, List.find?, hauth, hapi, hbne, hemp]
      simp [ht]
  · intro headers query t ht hnoh hq
    have hbne : (t != "") = true := by rw [bne_iff_ne]; exact ht
    have hemp : (("" : String) != "") = false := by decide
    constructor
    · unfold ExtractTokenFromRequest
      rw [hnoh "Authorization", if_neg (by simp)]
      simp only [defaultTokenKeys, List.find?, hnoh, hq, hbne, hemp]
    · unfold parseToken
      simp only [defaultTokenKeys, List.find?, hnoh, hq, hbne, hemp]
      simp [ht]

/-- Witness for C2: the three scenarios at the concrete token t. -/
theorem token_extraction_behavior_witness :
    ExtractTokenFromRequest (fun k => if k == "Authorization" then "Bearer t" else "")
      (fun _ => "") (some defaultTokenKeys) = "t" ∧
    parseToken (fun k => if k == "Authorization" then "Bearer t" else "")
      (fun _ => "") none defaultTokenKeys = "Bearer t" ∧
    parseToken (fun k => if k == "X-API-Key" then "t" else "")
      (fun _ => "") none defaultTokenKeys = "t" ∧
    parseToken (fun _ => "")
      (fun k => if k == "Authorization" then "t" else "") none defaultTokenKeys = "t" := by
  refine ⟨?_, ?_, ?_, ?_⟩
  · exact ((token_extraction_behavior.1 _ (fun _ => "") "t" (by decide) (by decide)).1)
  · exact ((token_extraction_behavior.1 _ (fun _ => "") "t" (by decide) (by decide)).2)
  · exact ((token_extraction_behavior.2.1 _ (fun _ => "") "t" (by decide) rfl rfl).2)
  · exact ((token_extraction_behavior.2.2 (fun _ => "") _ "t" (by decide)
      (fun _ => rfl) rfl).2)

/-- Counterexample to claim C2 as stated: under the dispatcher extractor
parseToken with the default key list, the header Authorization set to
Bearer and a token yields the Bearer-prefixed string, not the bare
token, because parseToken performs no Bearer stripping. -/
theorem token_extraction_bearer_counterexample :
    parseToken (fun k => if k == "Authorization" then "Bearer t" else "")
      (fun _ => "") none defaultTokenKeys = "Bearer t" ∧
    ("Bearer t" : String) ≠ "t" := by
  exact ⟨by rfl, by decide⟩

end Mod

namespace Mod

/-! ## Service registry (src/ctx.go Service, src/app.go App.Register) -/

/-- Handler of src/ctx.go: a type-erased function plus input and output
reflect type tags; only presence information is observable to the
registration validator and the dispatcher. -/
structure Handler where
  hasFunc : Bool
  hasInputType : Bool
  hasOutputType : Bool

/-- Service of src/ctx.go. The Permission field is consumed by
App.CheckServicePermission of part_002 and documented by the spec and
README, but its declaration is not in the src snapshot of ctx.go;
Modelled from the spec: the optional permission configuration rides on
the descriptor. -/
structure Service where
  name : String
  displayName : String
  handler : Handler
  description : String
  skipAuth : Bool
  returnRaw : Bool
  group : String
  sort : Int
  permission : Option PermissionConfig

/-- Model of validate.Struct on Service (external go-playground
validator): Name, DisplayName and Handler carry the required tag; for a
string required means non-empty, for the nested Handler struct it means
not the zero value. -/
def validateService (svc : Service) : Bool :=
  svc.name != "" && svc.displayName != "" &&
    (svc.handler.hasFunc || svc.handler.hasInputType || svc.handler.hasOutputType)

/-- The registration-relevant state of App: the installed POST routes
and the collected service descriptors (App.services in src/app.go). -/
structure ServiceRegistry where
  routes : List (String × String)
  services : List Service

/-- App.Register of src/app.go: validate the descriptor, build the
service path from the configured prefix, install the POST route, append
the descriptor. There is no lookup of the name in the existing catalog. -/
def Register (cfg : ModConfig) (reg : ServiceRegistry) (svc : Service) :
    Except String ServiceRegistry :=
  if ¬ validateService svc then .error "service validation failed"
  else
    .ok { routes := reg.routes ++ [("POST", cfg.app.servicePathPrefix ++ "/" ++ svc.name)]
          services := reg.services ++ [svc] }

end Mod

namespace Mod

/-! ## Theorems for claim C5 -/

/-- Claim C5 (amended): registration fails (registry unchanged) when the
name is empty, through descriptor validation; but a duplicate name is
not rejected — any descriptor passing validation is appended to the
catalog and a second route is installed, even when a service of the
same name is already registered. -/
theorem register_no_duplicate_check :
    (∀ (cfg : ModConfig) (reg : ServiceRegistry) (svc : Service),
      svc.name = "" → Register cfg reg svc = .error "service validation failed") ∧
    (∀ (cfg : ModConfig) (reg : ServiceRegistry) (svc : Service),
      validateService svc = true →
      Register cfg reg svc =
        .ok { routes := reg.routes ++ [("POST", cfg.app.servicePathPrefix ++ "/" ++ svc.name)]
              services := reg.services ++ [svc] }) ∧
    (∀ (cfg : ModConfig) (reg : ServiceRegistry) (svc : Service),
      validateService svc = true →
      reg.services.any (fun s => s.name == svc.name) = true →
      Register cfg reg svc =
        .ok { routes := reg.routes ++ [("POST", cfg.app.servicePathPrefix ++ "/" ++ svc.name)]
              services := reg.services ++ [svc] }) := by
  refine ⟨?_, ?_, ?_⟩
  · intro cfg reg svc hname
    simp [Register, validateService, hname]
  · intro cfg reg svc hval
    simp [Register, hval]
  · intro cfg reg svc hval _
    simp [Register, hval]

/-- Service descriptor for the C5 instances. -/
def svcC5 : Service :=
  { name := "echo", displayName := "Echo"
    handler := { hasFunc := true, hasInputType := true, hasOutputType := true }
    description := "", skipAuth := false, returnRaw := false, group := "", sort := 0
    permission := none }

/-- Registry that already contains svcC5. -/
def regC5 : ServiceRegistry :=
  { routes := [("POST", "/services/echo")], services := [svcC5] }

/-- Witness for C5: an empty name is rejected; re-registering svcC5 on a
registry already holding it succeeds and appends a second copy. -/
theorem register_no_duplicate_check_witness :
    Register baseModConfig regC5 { svcC5 with name := "" } =
      .error "service validation failed" ∧
    Register baseModConfig regC5 svcC5 =
      .ok { routes := [("POST", "/services/echo"), ("POST", "/services/echo")]
            services := [svcC5, svcC5] } := by
  constructor
  · exact register_no_duplicate_check.1 baseModConfig regC5 { svcC5 with name := "" } rfl
  · have h := register_no_duplicate_check.2.2 baseModConfig regC5 svcC5 rfl rfl
    rw [h]
    rfl

/-- Counterexample to claim C5 as stated: registering a descriptor whose
name is already present in the registry does not fail; the call returns
ok and the registry now holds the descriptor twice, so App.Register has
no AlreadyRegistered rejection. -/
theorem register_duplicate_accepted_counterexample :
    Register baseModConfig regC5 svcC5 =
      .ok { routes := [("POST", "/services/echo"), ("POST", "/services/echo")]
            services := [svcC5, svcC5] } := by
  rfl

end Mod

namespace Mod

/-! ## Request dispatch with the permission phase (claim C1)

The authentication phases below are translated from the closure that
App.Register installs in src/app.go. The permission phase is absent
from the src snapshot (App.CheckServicePermission of part_002 has no
caller there); it is Modelled from the spec, section 4.7 phase 4 and
the README: run whenever service.permission is non-null, denying with
status 403 and envelope code 403 before the handler. All later phases
(envelope unwrap, parsing, mock or handler, response wrap) are the rest
continuation, the only place the handler can run. -/

/-- App.validateToken of src/app.go: passes when no config is loaded or
validation is disabled; an empty token fails; otherwise an existence
lookup of the prefixed key in the configured backend, failing open on a
backend read error and failing closed on an unrecognised strategy. -/
def validateToken (app : App) (token : String) : Bool :=
  match app.modConfig with
  | none => true
  | some cfg =>
    if ¬ cfg.token.validation.enabled then true
    else if token = "" then false
    else
      if validStrategy cfg.token.validation.cacheStrategy then
        if app.backend.readFails (cfg.token.validation.cacheKeyPrefix ++ token) then true
        else (mapLookup app.backend.entries (cfg.token.validation.cacheKeyPrefix ++ token)).isSome
      else false

/-- Observables of one dispatch for claim C1: HTTP status, envelope
code, and whether the service handler ran. -/
structure DispatchOutcome where
  status : Nat
  envelopeCode : Nat
  handlerInvoked : Bool
deriving DecidableEq

/-- Modelled from the spec: the dispatcher pipeline head. Phases 1 and 2
follow the Register closure of src/app.go (401 on missing token, 401 on
failed token validation, both skipped under skip_auth); phase 4 is the
spec-modelled permission gate over the source-translated
CheckServicePermission. The source evaluates parseToken once and caches
it in the request context; parseToken on the same request is repeated
here verbatim, which agrees with the cache. -/
def dispatch (app : App) (svc : Service) (headers query : String → String)
    (rest : DispatchOutcome) : DispatchOutcome :=
  if ¬ svc.skipAuth ∧ parseToken headers query none app.tokenKeys = "" then
    ⟨401, 401, false⟩
  else if ¬ svc.skipAuth ∧
      validateToken app (parseToken headers query none app.tokenKeys) = false then
    ⟨401, 401, false⟩
  else if svc.permission.isSome ∧
      CheckServicePermission app (parseToken headers query none app.tokenKeys)
        svc.permission = false then
    ⟨403, 403, false⟩
  else rest

/-- Claim C1: for a registered service carrying a permission config,
when the stored principal attributes fail the rules (the permission
check denies), a request that passes authentication is answered with
HTTP 403 and envelope code 403, and the handler is never invoked,
whatever the remaining pipeline would have produced. -/
theorem permission_denied_gives_403 (app : App) (svc : Service)
    (headers query : String → String) (rest : DispatchOutcome) (p : PermissionConfig)
    (hperm : svc.permission = some p)
    (hauth : svc.skipAuth = false →
      parseToken headers query none app.tokenKeys ≠ "" ∧
      validateToken app (parseToken headers query none app.tokenKeys) = true)
    (hdeny : CheckServicePermission app (parseToken headers query none app.tokenKeys)
      svc.permission = false) :
    dispatch app svc headers query rest = ⟨403, 403, false⟩ := by
  unfold dispatch
  by_cases hs : svc.skipAuth = true
  · rw [if_neg (by simp [hs]), if_neg (by simp [hs]),
      if_pos ⟨by simp [hperm], hdeny⟩]
  · have hs0 : svc.skipAuth = false := by simpa using hs
    have h2 := hauth hs0
    rw [if_neg (by simp [h2.1]), if_neg (by simp [h2.2]),
      if_pos ⟨by simp [hperm], hdeny⟩]

/-- Configuration for the C1 witness: token validation on (bigcache). -/
def cfgC1 : ModConfig :=
  { baseModConfig with token :=
    { jwt := { enabled := false, secretKey := "", issuer := "", algorithm := "" }
      validation := { enabled := true, cacheStrategy := "bigcache", cacheKeyPrefix := "p:" } } }

/-- App for the C1 witness: the token blob decodes to a principal whose
role is user. -/
def appC1 : App :=
  { modConfig := some cfgC1
    backend := { entries := [("p:tok", [2])], readFails := fun _ => false, writeFails := fun _ => false }
    unmarshal := fun b =>
      if b == [2] then some [("user", Json.obj [("role", Json.str "user")])] else none
    tokenKeys := defaultTokenKeys }

/-- Service for the C1 witness: requires role admin. -/
def svcC1 : Service :=
  { name := "admin_data", displayName := "Admin data"
    handler := { hasFunc := true, hasInputType := true, hasOutputType := true }
    description := "", skipAuth := false, returnRaw := false, group := "", sort := 0
    permission := some { rules := [{ field := "user.role", operator := "eq",
                                     value := Json.str "admin" }], logic := "AND" } }

/-- Witness for C1: an authenticated request whose principal has role
user against the admin-only service is answered 403/403 and the handler
does not run, even though the rest of the pipeline would have answered
200. -/
theorem permission_denied_gives_403_witness :
    dispatch appC1 svcC1 (fun k => if k == "Authorization" then "tok" else "")
      (fun _ => "") ⟨200, 0, true⟩ = ⟨403, 403, false⟩ := by
  exact permission_denied_gives_403 appC1 svcC1 _ _ ⟨200, 0, true⟩
    { rules := [{ field := "user.role", operator := "eq", value := Json.str "admin" }],
      logic := "AND" }
    rfl (fun _ => ⟨by decide, by decide⟩) (by decide)

end Mod
